import Mathlib

/-!
# MetaHash peer node: startup configuration (src/Config.h, src/Config.cpp)

A shallow embedding of `sniper::Config`: the topology loader
`load_network_nodes`, the settings loader `Config::load_config`, the
constructor `Config::Config` with its three final checks, and the accessors.

The helpers of libsniper, libconfig and the standard library that the two
source files call are declared outside the repository.  They are taken as
parameters (`Lib`, `Settings`, `HttpDefaults`, the host parallelism `hw`), so every
general theorem holds for whatever those helpers compute.  A reference
instance (`reference_lib`) is used only to evaluate the concrete examples.
-/

namespace sniper

/-! ## Topology loader (Config.cpp, lines 40-66) -/

/-- The `net::Peer` value: an IPv4 address (a `uint32_t`) and a port (a `uint16_t`). -/
structure Peer where
  ip : Nat
  port : Nat
deriving DecidableEq

/-- The libsniper helpers called by `load_network_nodes`, taken as parameters.

* `load_file_by_line file` is the sequence of lines that
  `file::load_file_by_line` hands to its callback, in order, for a file that
  could be opened;
* `split line` is the outcome of `strings::split(line, " ", cont, cont.max_size())`:
  `none` when it returns false, `some cont` when it returns true and leaves
  the tokens `cont` in the container;
* `fast_atoi64 tok` is the `optional<int64_t>` of `strings::fast_atoi64`;
* `ip_from_sv tok` is `some ip` when `net::ip_from_sv(tok, ip)` returns true. -/
structure Lib where
  load_file_by_line : String → List String
  split : String → Option (List String)
  fast_atoi64 : String → Option Int
  ip_from_sv : String → Option Nat

/-- Conversion of an `int64_t` to the `uint16_t` port of a `net::Peer`
(`nodes.emplace_back(ip, *port)`): reduction modulo 2^16. -/
def to_uint16 (v : Int) : Nat := (v % 65536).toNat

/-- The callback given to `file::load_file_by_line` (Config.cpp, lines 49-63),
as a step on the captured variables `(network, nodes)`. -/
def on_line (lib : Lib) (st : String × List Peer) (line : String) : String × List Peer :=
  if st.1 = "" then
    (line, st.2)
  else
    match lib.split line with
    | none => st
    | some cont =>
      if 2 ≤ cont.length then
        match lib.fast_atoi64 (cont.getD 1 "") with
        | none => st
        | some port =>
          match lib.ip_from_sv (cont.getD 0 "") with
          | none => st
          | some ip => (st.1, st.2 ++ [Peer.mk ip (to_uint16 port)])
      else st

/-- The function `load_network_nodes` (Config.cpp, lines 43-66): run the callback
over the lines of the file, starting from an empty name and an empty list. -/
def load_network_nodes (lib : Lib) (file : String) : String × List Peer :=
  (lib.load_file_by_line file).foldl (on_line lib) ("", [])

/-- The specification of one peer line, in the words of the spec: a line
contributes a peer only if it has at least 2 tokens, token 0 parses as an
IPv4 address and token 1 parses as an integer port; the endpoint is that
address with that port (held in a `uint16_t`). -/
def peer_of_line (lib : Lib) (line : String) : Option Peer :=
  match lib.split line with
  | some (t0 :: t1 :: _) =>
    match lib.ip_from_sv t0, lib.fast_atoi64 t1 with
    | some ip, some port => some (Peer.mk ip (to_uint16 port))
    | _, _ => none
  | _ => none

/-- A malformed peer line, in the words of the spec: fewer than 2 tokens, or
token 0 not a valid IPv4 address, or token 1 not numeric. -/
def malformed (lib : Lib) (line : String) : Bool :=
  match lib.split line with
  | none => true
  | some cont =>
    decide (cont.length < 2) || (lib.ip_from_sv (cont.getD 0 "")).isNone
      || (lib.fast_atoi64 (cont.getD 1 "")).isNone

/-! ### A reference instance of the helpers, for the concrete examples -/

/-- Cut a character list at every occurrence of `sep`. -/
def split_chars (sep : Char) : List Char → List (List Char)
  | [] => [[]]
  | c :: cs =>
    match split_chars sep cs with
    | [] => [[c]]
    | t :: ts => if c = sep then [] :: t :: ts else (c :: t) :: ts

/-- Value of a decimal digit. -/
def digit_value (c : Char) : Option Nat :=
  if 48 ≤ c.toNat ∧ c.toNat ≤ 57 then some (c.toNat - 48) else none

/-- Value of a non-empty string of decimal digits. -/
def decimal_value : List Char → Option Nat
  | [] => none
  | c :: cs =>
    (c :: cs).foldl
      (fun acc ch =>
        match acc, digit_value ch with
        | some a, some d => some (10 * a + d)
        | _, _ => none)
      (some 0)

/-- One octet of a dotted quad: one to three decimal digits, at most 255. -/
def octet_value (cs : List Char) : Option Nat :=
  match decimal_value cs with
  | some v => if cs.length ≤ 3 ∧ v ≤ 255 then some v else none
  | none => none

/-- The number that stands for the address `a.b.c.d` in the reference instance. -/
def ipv4 (a b c d : Nat) : Nat := a * 16777216 + b * 65536 + c * 256 + d

/-- Modelled from the spec: `file::load_file_by_line` of libsniper, which is not
part of the sources ("read the file line by line, in order"): the pieces
between line feeds, without the empty piece after a final line feed. -/
def reference_lines (file : String) : List String :=
  let pieces := split_chars (Char.ofNat 10) file.toList
  let pieces := if pieces.getLast? = some [] then pieces.dropLast else pieces
  pieces.map String.mk

/-- Modelled from the spec: `strings::split` of libsniper with separator `" "`
and at most 3 elements ("tokenized on whitespace into at most 3 fields"):
the non-empty pieces between blanks, the first three of them; false when
there is none. -/
def reference_split (line : String) : Option (List String) :=
  let toks := ((split_chars (Char.ofNat 32) line.toList).filter (fun t => !t.isEmpty)).take 3
  if toks.isEmpty then none else some (toks.map String.mk)

/-- Modelled from the spec: `strings::fast_atoi64` of libsniper on a token of
decimal digits ("decimal port"). -/
def reference_atoi64 (tok : String) : Option Int :=
  (decimal_value tok.toList).map Int.ofNat

/-- Modelled from the spec: `net::ip_from_sv` of libsniper ("a valid IPv4
dotted-quad address"): exactly four octets separated by dots. -/
def reference_ip (tok : String) : Option Nat :=
  match (split_chars (Char.ofNat 46) tok.toList).map octet_value with
  | [some a, some b, some c, some d] => some (ipv4 a b c d)
  | _ => none

/-- The reference instance of the libsniper helpers. -/
def reference_lib : Lib where
  load_file_by_line := reference_lines
  split := reference_split
  fast_atoi64 := reference_atoi64
  ip_from_sv := reference_ip

/-! ## The configuration object (Config.h) -/

/-- Modelled from the spec: `net::Domain` of libsniper, which is not part of the
sources (the NetworkTopology of the spec: a name and an ordered sequence of
peers); it starts with an empty name and no node. -/
structure Domain where
  name : String := ""
  nodes : List Peer := []
deriving DecidableEq

/-- Modelled from the spec: `net::Domain::set`, which records the network name. -/
def Domain.set (d : Domain) (network : String) : Domain :=
  { d with name := network }

/-- The fields of `http::server::Config` that `load_config` writes (the time-out in seconds). -/
structure ServerConfig where
  max_conns : Nat
  backlog : Nat
  keep_alive_timeout : Nat
  buffer_size : Nat
  request_max_size : Nat
deriving DecidableEq

/-- The fields of `http::client::Config` that `load_config` writes (the time-out in milliseconds). -/
structure ClientConfig where
  conns_per_ip : Nat
  pool_max_conns : Nat
  response_timeout : Nat
  body_max_size : Nat
deriving DecidableEq

/-- The initial values of the two libsniper HTTP configurations
(`http::server::make_config()` and a default `http::client::Config`), taken
as a parameter. -/
structure HttpDefaults where
  server : ServerConfig
  client : ClientConfig

/-- The private data members of `class Config` (Config.h, lines 56-72), with
their default member initialisers. -/
structure Config where
  _http_server_config : ServerConfig
  _http_client_config : ClientConfig
  _ip : String := ""
  _port : Nat := 8080
  _threads_count : Nat := 1
  _stats_send_interval : Nat := 1
  _stats_dump_stdout : Bool := false
  _http_post_retries : Nat := 1
  _stats_send : Bool := true
  _network : Domain := {}
  _stats : String := ""
  _thread_queue_size : Int := 0
  _reqs_dump_ok : Bool := false
  _reqs_dump_err : Bool := false
deriving DecidableEq

/-- The way construction or loading can stop: a failed `check` (an exception
with its message), an exception of `libconfig::Config::readFile`, or the
integer division of line 119 executed with a zero divisor. -/
inductive Failure where
  | check (msg : String)
  | read_file
  | division_by_zero
deriving DecidableEq

/-- The `check(cond, msg)` of libsniper: throws when the condition is false. -/
def check (cond : Bool) (msg : String) : Except Failure Unit :=
  if cond then .ok () else .error (.check msg)

/-! ## The settings file as libconfig presents it -/

/-- The `core` group: for each key the outcome of its `lookupValue` call, `none`
when the call returns false (key absent or of another type) and leaves its
target untouched, `some v` when it returns true and stores `v`.  Numbers are
`unsigned int` values. -/
structure CoreSettings where
  threads : Option Nat := none
  reqs_dump_ok : Option Bool := none
  reqs_dump_err : Option Bool := none
  queue_size : Option Nat := none

/-- The `stats` group, key by key. -/
structure StatsSettings where
  interval_seconds : Option Nat := none
  url : Option String := none
  dump_stdout : Option Bool := none
  send : Option Bool := none

/-- The `http.server` group, key by key. -/
structure ServerSettings where
  ip : Option String := none
  port : Option Nat := none
  max_conns : Option Nat := none
  backlog : Option Nat := none
  keep_alive_timeout_seconds : Option Nat := none
  message_max_size : Option Nat := none

/-- The `http.client` group, key by key. -/
structure ClientSettings where
  conns_per_ip : Option Nat := none
  pool_max_conns : Option Nat := none
  reponse_timeout_ms : Option Nat := none
  retries : Option Nat := none
  message_max_size : Option Nat := none

/-- The `http` group: `none` for a group that does not exist. -/
structure HttpSettings where
  server : Option ServerSettings := none
  client : Option ClientSettings := none

/-- The root of a settings file that libconfig has read: `none` for a section
for which `cfg.getRoot().exists(..)` is false. -/
structure Settings where
  core : Option CoreSettings := none
  stats : Option StatsSettings := none
  http : Option HttpSettings := none

/-- The settings file on disk as `load_config` sees it: whether
`fs::exists(p, ec) && !ec` holds, whether `fs::file_size(p, ec) && !ec` holds,
and what `cfg.readFile` leaves in `cfg` (`none` when it throws). -/
structure ConfigFile where
  present : Bool
  nonempty : Bool
  content : Option Settings

/-- A settings file that exists, is not empty and is read as `cfg`. -/
def readable (cfg : Settings) : ConfigFile :=
  { present := true, nonempty := true, content := some cfg }

/-- The call `group.lookupValue(key, target)` for a target that is a data member: the
new value of the target. -/
def lookupValue {α : Type} (outcome : Option α) (target : α) : α :=
  match outcome with
  | some v => v
  | none => target

/-! ## Config::load_config (Config.cpp, lines 93-207) -/

/-- Lines 110-112: read `threads`, and replace a zero thread count by
`std::thread::hardware_concurrency()` (the value `hw`). -/
def load_config_threads (hw : Nat) (core : CoreSettings) (c : Config) : Config :=
  let c := { c with _threads_count := lookupValue core.threads c._threads_count }
  if c._threads_count = 0 then { c with _threads_count := hw } else c

/-- Lines 107-121, for a `core` group that exists.  Both operands of the
division of line 119 are non-negative (`queue_size` holds an `unsigned int`),
so the quotient of the two `int64_t` values is the quotient of naturals; with
a zero divisor the C++ division is undefined, which is reported as
`Failure.division_by_zero`. -/
def load_config_core (hw : Nat) (core : CoreSettings) (c : Config) : Except Failure Config :=
  let c := load_config_threads hw core c
  let c := { c with _reqs_dump_ok := lookupValue core.reqs_dump_ok c._reqs_dump_ok }
  let c := { c with _reqs_dump_err := lookupValue core.reqs_dump_err c._reqs_dump_err }
  match core.queue_size with
  | some num =>
    if c._threads_count = 0 then .error .division_by_zero
    else .ok { c with _thread_queue_size := Int.ofNat (num / c._threads_count) }
  | none => .ok c

/-- Lines 123-132, for a `stats` group that exists. -/
def load_config_stats (stats : StatsSettings) (c : Config) : Config :=
  let c :=
    match stats.interval_seconds with
    | some num => { c with _stats_send_interval := num }
    | none => c
  let c := { c with _stats := lookupValue stats.url c._stats }
  let c := { c with _stats_dump_stdout := lookupValue stats.dump_stdout c._stats_dump_stdout }
  { c with _stats_send := lookupValue stats.send c._stats_send }

/-- Lines 137-155, for an `http.server` group that exists. -/
def load_config_server (server : ServerSettings) (c : Config) : Config :=
  let c := { c with _ip := lookupValue server.ip c._ip }
  let c := { c with _port := lookupValue server.port c._port }
  let c :=
    match server.max_conns with
    | some num => { c with _http_server_config := { c._http_server_config with max_conns := num } }
    | none => c
  let c := { c with _http_server_config :=
    { c._http_server_config with
      backlog := lookupValue server.backlog c._http_server_config.backlog } }
  let c :=
    match server.keep_alive_timeout_seconds with
    | some num =>
      { c with _http_server_config := { c._http_server_config with keep_alive_timeout := num } }
    | none => c
  match server.message_max_size with
  | some num =>
    { c with _http_server_config :=
      { c._http_server_config with buffer_size := num, request_max_size := num } }
  | none => c

/-- Lines 157-173, for an `http.client` group that exists. -/
def load_config_client (client : ClientSettings) (c : Config) : Config :=
  let c :=
    match client.conns_per_ip with
    | some num => { c with _http_client_config := { c._http_client_config with conns_per_ip := num } }
    | none => c
  let c :=
    match client.pool_max_conns with
    | some num =>
      { c with _http_client_config := { c._http_client_config with pool_max_conns := num } }
    | none => c
  let c :=
    match client.reponse_timeout_ms with
    | some num =>
      { c with _http_client_config := { c._http_client_config with response_timeout := num } }
    | none => c
  let c := { c with _http_post_retries := lookupValue client.retries c._http_post_retries }
  match client.message_max_size with
  | some num =>
    { c with _http_client_config := { c._http_client_config with body_max_size := num } }
  | none => c

/-- Lines 134-174, for an `http` group that exists. -/
def load_config_http (http : HttpSettings) (c : Config) : Config :=
  let c :=
    match http.server with
    | some server => load_config_server server c
    | none => c
  match http.client with
  | some client => load_config_client client c
  | none => c

/-- The sections of a settings file that has been read (lines 107-174); the
log lines that follow change nothing. -/
def load_config_sections (hw : Nat) (cfg : Settings) (c : Config) : Except Failure Config :=
  let afterCore :=
    match cfg.core with
    | some core => load_config_core hw core c
    | none => .ok c
  match afterCore with
  | .error e => .error e
  | .ok c =>
    let c :=
      match cfg.stats with
      | some stats => load_config_stats stats c
      | none => c
    match cfg.http with
    | some http => .ok (load_config_http http c)
    | none => .ok c

/-- The member function `Config::load_config` (lines 93-207) on the object state `c`. -/
def load_config (hw : Nat) (p : ConfigFile) (c : Config) : Except Failure Config :=
  if !p.present then .error (.check "Config file \x7b\x7d does not exists")
  else if !p.nonempty then .error (.check "Empty config file")
  else
    match p.content with
    | none => .error .read_file
    | some cfg => load_config_sections hw cfg c

/-! ## Config::load_network and the constructor (Config.cpp, lines 70-91) -/

/-- The member function `Config::load_network` (lines 81-91). -/
def load_network (lib : Lib) (p : String) (c : Config) : Config :=
  let loaded := load_network_nodes lib p
  let c := if loaded.1 ≠ "" then { c with _network := c._network.set loaded.1 } else c
  loaded.2.foldl
    (fun c node => { c with _network := { c._network with nodes := c._network.nodes ++ [node] } }) c

/-- The object before the constructor body runs: the default member
initialisers, with the two members of the initialiser list of line 71. -/
def Config.initial (d : HttpDefaults) (hw : Nat) : Config :=
  { _http_server_config := d.server, _http_client_config := d.client, _threads_count := hw }

/-- The constructor `Config::Config` (lines 70-79), from the two files. -/
def Config.construct (lib : Lib) (d : HttpDefaults) (hw : Nat) (config_p : ConfigFile)
    (network_p : String) : Except Failure Config :=
  match load_config hw config_p (Config.initial d hw) with
  | .error e => .error e
  | .ok c =>
    let c := load_network lib network_p c
    match check (decide (c._stats ≠ "")) "[Config] Stats url not set" with
    | .error e => .error e
    | .ok _ =>
      match check (decide (c._network.name ≠ "")) "[Config] Network name empty" with
      | .error e => .error e
      | .ok _ =>
        match check (decide (c._network.nodes ≠ [])) "[Config] Network nodes list empty" with
        | .error e => .error e
        | .ok _ => .ok c

/-! ## Accessors (Config.cpp, lines 219-277) -/

/-- The accessor `Config::port`: the `unsigned` member returned as a `uint16_t`. -/
def Config.port (c : Config) : Nat := c._port % 65536

/-- The accessor `Config::threads_count`. -/
def Config.threads_count (c : Config) : Nat := c._threads_count

/-- The accessor `Config::network`. -/
def Config.network (c : Config) : Domain := c._network

/-- The accessor `Config::stats`. -/
def Config.stats (c : Config) : String := c._stats

/-- The accessor `Config::thread_queue_size`. -/
def Config.thread_queue_size (c : Config) : Int := c._thread_queue_size

/-- The accessor `Config::ip`. -/
def Config.ip (c : Config) : String := c._ip

/-- The accessor `Config::reqs_dump_ok`. -/
def Config.reqs_dump_ok (c : Config) : Bool := c._reqs_dump_ok

/-- The accessor `Config::reqs_dump_err`. -/
def Config.reqs_dump_err (c : Config) : Bool := c._reqs_dump_err

/-- The keys of the `core` section; a section that is absent has no key. -/
def Settings.core_keys (cfg : Settings) : CoreSettings :=
  match cfg.core with
  | some core => core
  | none => {}

/-- The keys of the `stats` section; a section that is absent has no key. -/
def Settings.stats_keys (cfg : Settings) : StatsSettings :=
  match cfg.stats with
  | some stats => stats
  | none => {}

/-- The keys of the `http.server` section; a section that is absent has no key. -/
def Settings.server_keys (cfg : Settings) : ServerSettings :=
  match cfg.http with
  | some http =>
    match http.server with
    | some server => server
    | none => {}
  | none => {}

/-- The keys of the `http.client` section; a section that is absent has no key. -/
def Settings.client_keys (cfg : Settings) : ClientSettings :=
  match cfg.http with
  | some http =>
    match http.client with
    | some client => client
    | none => {}
  | none => {}

/-- The final thread count in the words of the spec: the `threads` value of
the file if it is present and not zero, otherwise the host parallelism. -/
def final_threads (hw : Nat) (cfg : Settings) : Nat :=
  match cfg.core_keys.threads with
  | some v => if v = 0 then hw else v
  | none => hw

/-- The resolved configuration in the words of the spec: every member is the
value of its own key when the key is present and its default otherwise; the
thread count is the final thread count, and the queue size per thread is the
quotient of `queue_size` by it, or 0 without a `queue_size`. -/
def resolved (d : HttpDefaults) (hw : Nat) (cfg : Settings) : Config :=
  { _http_server_config :=
      { max_conns := cfg.server_keys.max_conns.getD d.server.max_conns
        backlog := cfg.server_keys.backlog.getD d.server.backlog
        keep_alive_timeout :=
          cfg.server_keys.keep_alive_timeout_seconds.getD d.server.keep_alive_timeout
        buffer_size := cfg.server_keys.message_max_size.getD d.server.buffer_size
        request_max_size := cfg.server_keys.message_max_size.getD d.server.request_max_size }
    _http_client_config :=
      { conns_per_ip := cfg.client_keys.conns_per_ip.getD d.client.conns_per_ip
        pool_max_conns := cfg.client_keys.pool_max_conns.getD d.client.pool_max_conns
        response_timeout := cfg.client_keys.reponse_timeout_ms.getD d.client.response_timeout
        body_max_size := cfg.client_keys.message_max_size.getD d.client.body_max_size }
    _ip := cfg.server_keys.ip.getD ""
    _port := cfg.server_keys.port.getD 8080
    _threads_count := final_threads hw cfg
    _stats_send_interval := cfg.stats_keys.interval_seconds.getD 1
    _stats_dump_stdout := cfg.stats_keys.dump_stdout.getD false
    _http_post_retries := cfg.client_keys.retries.getD 1
    _stats_send := cfg.stats_keys.send.getD true
    _network := {}
    _stats := cfg.stats_keys.url.getD ""
    _thread_queue_size :=
      match cfg.core_keys.queue_size with
      | some q => Int.ofNat (q / final_threads hw cfg)
      | none => 0
    _reqs_dump_ok := cfg.core_keys.reqs_dump_ok.getD false
    _reqs_dump_err := cfg.core_keys.reqs_dump_err.getD false }

/-- The division of line 119 is executed with a zero divisor: the file has a
`queue_size` and the final thread count is 0. -/
def divides_by_zero (hw : Nat) (cfg : Settings) : Bool :=
  cfg.core_keys.queue_size.isSome && decide (final_threads hw cfg = 0)

/-- Some initial values of the two HTTP configurations, for the concrete
examples; no theorem depends on the numbers. -/
def example_defaults : HttpDefaults :=
  { server :=
      { max_conns := 10000, backlog := 10000, keep_alive_timeout := 60, buffer_size := 1048576,
        request_max_size := 1048576 }
    client :=
      { conns_per_ip := 100, pool_max_conns := 1000, response_timeout := 1000,
        body_max_size := 1048576 } }

/-! ## Lemmas on the topology loader -/

theorem on_line_first (lib : Lib) (nodes : List Peer) (line : String) :
    on_line lib ("", nodes) line = (line, nodes) := by
  simp [on_line]

theorem on_line_named (lib : Lib) (st : String × List Peer) (line : String) (h : st.1 ≠ "") :
    on_line lib st line = (st.1, st.2 ++ (peer_of_line lib line).toList) := by
  unfold on_line peer_of_line
  rw [if_neg h]
  cases hs : lib.split line with
  | none => simp
  | some cont =>
    rcases cont with _ | ⟨t0, _ | ⟨t1, tl⟩⟩
    · simp
    · simp
    · cases ha : lib.fast_atoi64 t1 <;> cases hi : lib.ip_from_sv t0 <;> simp [ha, hi]

theorem foldl_on_line_named (lib : Lib) (name : String) (h : name ≠ "") :
    ∀ (rest : List String) (nodes : List Peer),
      rest.foldl (on_line lib) (name, nodes)
        = (name, nodes ++ rest.filterMap (peer_of_line lib)) := by
  intro rest
  induction rest with
  | nil => intro nodes; simp
  | cons l ls ih =>
    intro nodes
    rw [List.foldl_cons, on_line_named lib (name, nodes) l h, ih]
    cases hp : peer_of_line lib l <;> simp [List.filterMap_cons, hp]

theorem foldl_on_line_blank (lib : Lib) :
    ∀ (pre : List String) (nodes : List Peer), (∀ l ∈ pre, l = "") →
      pre.foldl (on_line lib) ("", nodes) = ("", nodes) := by
  intro pre
  induction pre with
  | nil => intro nodes _; rfl
  | cons l ls ih =>
    intro nodes hpre
    have hl : l = "" := hpre l (List.mem_cons_self _ _)
    rw [List.foldl_cons, on_line_first, hl]
    exact ih nodes (fun x hx => hpre x (List.mem_cons_of_mem _ hx))

theorem on_line_name (lib : Lib) (st : String × List Peer) (line : String) :
    (on_line lib st line).1 = if st.1 = "" then line else st.1 := by
  by_cases h : st.1 = ""
  · rw [if_pos h]
    have : st = ("", st.2) := by rw [← h]
    rw [this, on_line_first]
  · rw [if_neg h, on_line_named lib st line h]

theorem foldl_on_line_name_set (lib : Lib) :
    ∀ (pre : List String) (st : String × List Peer),
      (st.1 ≠ "" ∨ ∃ l ∈ pre, l ≠ "") → (pre.foldl (on_line lib) st).1 ≠ "" := by
  intro pre
  induction pre with
  | nil =>
    intro st h
    rcases h with h | ⟨l, hl, _⟩
    · exact h
    · cases hl
  | cons a as ih =>
    intro st h
    rw [List.foldl_cons]
    apply ih
    by_cases hst : st.1 = ""
    · rcases h with h | ⟨l, hl, hne⟩
      · exact absurd hst h
      · rcases List.mem_cons.mp hl with rfl | hl2
        · left
          rw [on_line_name, if_pos hst]
          exact hne
        · exact Or.inr ⟨l, hl2, hne⟩
    · left
      rw [on_line_name, if_neg hst]
      exact hst

theorem foldl_on_line_unnamed (lib : Lib) :
    ∀ (lines : List String) (st : String × List Peer), (st.1 = "" → st.2 = []) →
      (lines.foldl (on_line lib) st).1 = "" → (lines.foldl (on_line lib) st).2 = [] := by
  intro lines
  induction lines with
  | nil => intro st h; exact h
  | cons a as ih =>
    intro st h
    rw [List.foldl_cons]
    apply ih
    intro hname
    by_cases hst : st.1 = ""
    · have hst2 : st = ("", []) := Prod.ext hst (h hst)
      rw [hst2, on_line_first]
    · rw [on_line_name, if_neg hst] at hname
      exact absurd hname hst

theorem mem_foldl_on_line (lib : Lib) (p : Peer) :
    ∀ (lines : List String) (st : String × List Peer),
      p ∈ (lines.foldl (on_line lib) st).2 →
        p ∈ st.2 ∨ ∃ line ∈ lines, peer_of_line lib line = some p := by
  intro lines
  induction lines with
  | nil => intro st h; exact Or.inl h
  | cons a as ih =>
    intro st h
    rw [List.foldl_cons] at h
    rcases ih _ h with h1 | ⟨line, hl, hp⟩
    · by_cases hst : st.1 = ""
      · have hst2 : st = ("", st.2) := by rw [← hst]
        rw [hst2, on_line_first] at h1
        exact Or.inl h1
      · rw [on_line_named lib st a hst] at h1
        rcases List.mem_append.mp h1 with h2 | h2
        · exact Or.inl h2
        · right
          refine ⟨a, List.mem_cons_self _ _, ?_⟩
          cases hpa : peer_of_line lib a with
          | none => rw [hpa] at h2; simp at h2
          | some q =>
            rw [hpa] at h2
            simp at h2
            rw [h2]
    · exact Or.inr ⟨line, List.mem_cons_of_mem _ hl, hp⟩

theorem peer_of_line_some (lib : Lib) (line : String) (p : Peer)
    (h : peer_of_line lib line = some p) :
    ∃ cont v ip, lib.split line = some cont ∧ 2 ≤ cont.length ∧
      lib.fast_atoi64 (cont.getD 1 "") = some v ∧ lib.ip_from_sv (cont.getD 0 "") = some ip ∧
      p = Peer.mk ip (to_uint16 v) := by
  unfold peer_of_line at h
  cases hs : lib.split line with
  | none => rw [hs] at h; simp at h
  | some cont =>
    rw [hs] at h
    rcases cont with _ | ⟨t0, _ | ⟨t1, tl⟩⟩
    · simp at h
    · simp at h
    · cases ha : lib.fast_atoi64 t1 with
      | none => cases hi : lib.ip_from_sv t0 <;> simp [ha, hi] at h
      | some v =>
        cases hi : lib.ip_from_sv t0 with
        | none => simp [ha, hi] at h
        | some ip =>
          simp [ha, hi] at h
          exact ⟨t0 :: t1 :: tl, v, ip, rfl, by simp, by simpa using ha, by simpa using hi, h.symm⟩

theorem peer_of_line_malformed (lib : Lib) (line : String) (h : malformed lib line = true) :
    peer_of_line lib line = none := by
  unfold malformed at h
  unfold peer_of_line
  cases hs : lib.split line with
  | none => rfl
  | some cont =>
    rw [hs] at h
    rcases cont with _ | ⟨t0, _ | ⟨t1, tl⟩⟩
    · rfl
    · rfl
    · cases ha : lib.fast_atoi64 t1 <;> cases hi : lib.ip_from_sv t0 <;> simp [ha, hi] at h ⊢
      omega

theorem peer_of_line_tokens (lib : Lib) (line : String) (cont : List String) (v : Int) (ip : Nat)
    (hs : lib.split line = some cont) (hlen : 2 ≤ cont.length)
    (ha : lib.fast_atoi64 (cont.getD 1 "") = some v)
    (hi : lib.ip_from_sv (cont.getD 0 "") = some ip) :
    peer_of_line lib line = some (Peer.mk ip (to_uint16 v)) := by
  unfold peer_of_line
  rw [hs]
  rcases cont with _ | ⟨t0, _ | ⟨t1, tl⟩⟩
  · simp at hlen
  · simp at hlen
  · simp at ha hi
    simp [ha, hi]

theorem load_network_nodes_of_lines (lib : Lib) (file : String) (pre rest : List String)
    (L : String) (hfile : lib.load_file_by_line file = pre ++ L :: rest)
    (hpre : ∀ l ∈ pre, l = "") (hL : L ≠ "") :
    load_network_nodes lib file = (L, rest.filterMap (peer_of_line lib)) := by
  unfold load_network_nodes
  rw [hfile, List.foldl_append, foldl_on_line_blank lib pre [] hpre, List.foldl_cons,
    on_line_first, foldl_on_line_named lib L hL]
  simp

theorem load_network_nodes_unnamed (lib : Lib) (file : String)
    (h : (load_network_nodes lib file).1 = "") : (load_network_nodes lib file).2 = [] :=
  foldl_on_line_unnamed lib _ ("", []) (fun _ => rfl) h

/-! ## Claims on the topology loader -/

/-- C3: when the first non-empty line handed to the callback is `L`,
`load_network_nodes` returns `L` itself as the network name, and as peers the
endpoints of the well-formed lines after `L`, one per such line, in file
order and with duplicates kept (`L` is never parsed as a peer line). -/
theorem load_network_nodes_name_and_peers (lib : Lib) (file : String)
    (pre rest : List String) (L : String)
    (hfile : lib.load_file_by_line file = pre ++ L :: rest)
    (hpre : ∀ l ∈ pre, l = "") (hL : L ≠ "") :
    load_network_nodes lib file = (L, rest.filterMap (peer_of_line lib)) :=
  load_network_nodes_of_lines lib file pre rest L hfile hpre hL

/-- C3, the example of the spec: the file
"net-main\n206.189.11.155 9999 256\n206.189.11.153 9999 256\n" gives the name
"net-main" and the two peers in file order; a first line shaped like a peer
line is the name and yields no peer. -/
theorem load_network_nodes_name_and_peers_witness :
    reference_lib.load_file_by_line "net-main\n206.189.11.155 9999 256\n206.189.11.153 9999 256\n"
        = [] ++ "net-main" :: ["206.189.11.155 9999 256", "206.189.11.153 9999 256"]
      ∧ "net-main" ≠ ""
      ∧ load_network_nodes reference_lib
          "net-main\n206.189.11.155 9999 256\n206.189.11.153 9999 256\n"
        = ("net-main", [Peer.mk (ipv4 206 189 11 155) 9999, Peer.mk (ipv4 206 189 11 153) 9999])
      ∧ load_network_nodes reference_lib "206.189.11.155 9999 256\n206.189.11.155 9999 256\n"
        = ("206.189.11.155 9999 256", [Peer.mk (ipv4 206 189 11 155) 9999]) :=
  ⟨by decide, by decide,
    (load_network_nodes_name_and_peers reference_lib
      "net-main\n206.189.11.155 9999 256\n206.189.11.153 9999 256\n" []
      ["206.189.11.155 9999 256", "206.189.11.153 9999 256"] "net-main"
      (by decide) (by simp) (by decide)).trans (by decide),
    (load_network_nodes_name_and_peers reference_lib
      "206.189.11.155 9999 256\n206.189.11.155 9999 256\n" []
      ["206.189.11.155 9999 256"] "206.189.11.155 9999 256"
      (by decide) (by simp) (by decide)).trans (by decide)⟩

/-- C4: a malformed line after the network-name line (fewer than 2 tokens,
token 0 not a valid IPv4 address, or token 1 not numeric) does not stop the
loading and adds no peer: name and peers are those of the file without that
line. -/
theorem malformed_line_is_skipped (lib : Lib) (file file2 : String)
    (pre post : List String) (bad : String)
    (hfile : lib.load_file_by_line file = pre ++ bad :: post)
    (hfile2 : lib.load_file_by_line file2 = pre ++ post)
    (hname : ∃ l ∈ pre, l ≠ "")
    (hbad : malformed lib bad = true) :
    load_network_nodes lib file = load_network_nodes lib file2 := by
  unfold load_network_nodes
  rw [hfile, hfile2, List.foldl_append, List.foldl_append, List.foldl_cons]
  have hset : (pre.foldl (on_line lib) ("", [])).1 ≠ "" :=
    foldl_on_line_name_set lib pre ("", []) (Or.inr hname)
  rw [on_line_named lib _ bad hset, peer_of_line_malformed lib bad hbad]
  simp

/-- C4, the examples of the spec: the lines "not-an-ip 9999" and
"206.189.11.155 notaport" are malformed and the files that hold them load as
the files without them. -/
theorem malformed_line_is_skipped_witness :
    (malformed reference_lib "not-an-ip 9999" = true
      ∧ load_network_nodes reference_lib
          "net-main\n206.189.11.155 9999 256\nnot-an-ip 9999\n206.189.11.153 9999 256\n"
        = load_network_nodes reference_lib
          "net-main\n206.189.11.155 9999 256\n206.189.11.153 9999 256\n")
    ∧ (malformed reference_lib "206.189.11.155 notaport" = true
      ∧ load_network_nodes reference_lib
          "net-main\n206.189.11.155 notaport\n206.189.11.153 9999 256\n"
        = load_network_nodes reference_lib "net-main\n206.189.11.153 9999 256\n") :=
  ⟨⟨by decide,
      malformed_line_is_skipped reference_lib
        "net-main\n206.189.11.155 9999 256\nnot-an-ip 9999\n206.189.11.153 9999 256\n"
        "net-main\n206.189.11.155 9999 256\n206.189.11.153 9999 256\n"
        ["net-main", "206.189.11.155 9999 256"] ["206.189.11.153 9999 256"] "not-an-ip 9999"
        (by decide) (by decide) ⟨"net-main", by decide, by decide⟩ (by decide)⟩,
    ⟨by decide,
      malformed_line_is_skipped reference_lib
        "net-main\n206.189.11.155 notaport\n206.189.11.153 9999 256\n"
        "net-main\n206.189.11.153 9999 256\n"
        ["net-main"] ["206.189.11.153 9999 256"] "206.189.11.155 notaport"
        (by decide) (by decide) ⟨"net-main", by decide, by decide⟩ (by decide)⟩⟩

/-- C9, as the code has it: every peer of the result comes from a line whose
token 1 is parsed by `fast_atoi64` as an integer `v` and whose token 0 is a
valid address, and the stored port is `v` modulo 65536, which is `v` itself
exactly when `0 ≤ v ≤ 65535`; no test on the range of `v` rejects a line:
a line after the name with two tokens that parse adds its peer whatever `v` is. -/
theorem peer_port_is_token_modulo_65536 :
    (∀ (lib : Lib) (file : String) (p : Peer), p ∈ (load_network_nodes lib file).2 →
      ∃ line ∈ lib.load_file_by_line file, ∃ cont v ip,
        lib.split line = some cont ∧ 2 ≤ cont.length ∧
        lib.fast_atoi64 (cont.getD 1 "") = some v ∧
        lib.ip_from_sv (cont.getD 0 "") = some ip ∧
        p = Peer.mk ip (to_uint16 v) ∧ (p.port : Int) = v % 65536 ∧
        ((p.port : Int) = v ↔ (0 ≤ v ∧ v ≤ 65535)))
    ∧ (∀ (lib : Lib) (file : String) (pre rest : List String) (L line : String)
        (cont : List String) (v : Int) (ip : Nat),
        lib.load_file_by_line file = pre ++ L :: rest → (∀ l ∈ pre, l = "") → L ≠ "" →
        line ∈ rest → lib.split line = some cont → 2 ≤ cont.length →
        lib.fast_atoi64 (cont.getD 1 "") = some v → lib.ip_from_sv (cont.getD 0 "") = some ip →
        Peer.mk ip (to_uint16 v) ∈ (load_network_nodes lib file).2) := by
  constructor
  · intro lib file p hp
    rcases mem_foldl_on_line lib p _ _ hp with h | ⟨line, hl, hpl⟩
    · simp at h
    · obtain ⟨cont, v, ip, hs, hlen, ha, hi, hpe⟩ := peer_of_line_some lib line p hpl
      refine ⟨line, hl, cont, v, ip, hs, hlen, ha, hi, hpe, ?_, ?_⟩
      · rw [hpe]
        show ((to_uint16 v : Nat) : Int) = v % 65536
        unfold to_uint16
        omega
      · rw [hpe]
        show ((to_uint16 v : Nat) : Int) = v ↔ _
        unfold to_uint16
        omega
  · intro lib file pre rest L line cont v ip hfile hpre hL hmem hs hlen ha hi
    rw [load_network_nodes_of_lines lib file pre rest L hfile hpre hL]
    exact List.mem_filterMap.mpr ⟨line, hmem, peer_of_line_tokens lib line cont v ip hs hlen ha hi⟩

/-- C9, at a concrete file: the peer of the line "206.189.11.155 70000" has
the port 70000 modulo 65536, and the line "206.189.11.155 65536" adds a peer
with port 0. -/
theorem peer_port_is_token_modulo_65536_witness :
    (Peer.mk (ipv4 206 189 11 155) 4464
        ∈ (load_network_nodes reference_lib "main\n206.189.11.155 70000\n").2
      ∧ ∃ line ∈ reference_lib.load_file_by_line "main\n206.189.11.155 70000\n", ∃ cont v ip,
        reference_lib.split line = some cont ∧ 2 ≤ cont.length ∧
        reference_lib.fast_atoi64 (cont.getD 1 "") = some v ∧
        reference_lib.ip_from_sv (cont.getD 0 "") = some ip ∧
        Peer.mk (ipv4 206 189 11 155) 4464 = Peer.mk ip (to_uint16 v) ∧
        ((Peer.mk (ipv4 206 189 11 155) 4464).port : Int) = v % 65536 ∧
        (((Peer.mk (ipv4 206 189 11 155) 4464).port : Int) = v ↔ (0 ≤ v ∧ v ≤ 65535)))
    ∧ Peer.mk (ipv4 206 189 11 155) (to_uint16 65536)
        ∈ (load_network_nodes reference_lib "main\n206.189.11.155 65536\n").2 :=
  ⟨⟨by decide,
      peer_port_is_token_modulo_65536.1 reference_lib "main\n206.189.11.155 70000\n"
        (Peer.mk (ipv4 206 189 11 155) 4464) (by decide)⟩,
    peer_port_is_token_modulo_65536.2 reference_lib "main\n206.189.11.155 65536\n"
      [] ["206.189.11.155 65536"] "main" "206.189.11.155 65536" ["206.189.11.155", "65536"]
      65536 (ipv4 206 189 11 155)
      (by decide) (by simp) (by decide) (by decide) (by decide) (by decide) (by decide)
      (by decide)⟩

/-- C9 as the spec states it fails: in the file
"net-main\n206.189.11.155 70000\n" the port token of the peer line is 70000,
greater than 65535, yet the line adds a peer, and the stored port is 4464. -/
theorem port_above_65535_counterexample :
    reference_lib.fast_atoi64 "70000" = some 70000
      ∧ load_network_nodes reference_lib "net-main\n206.189.11.155 70000\n"
        = ("net-main", [Peer.mk (ipv4 206 189 11 155) 4464]) :=
  ⟨by decide, by decide⟩

/-! ## Lemmas on the settings loader -/

theorem load_config_stats_eq (stats : StatsSettings) (c : Config) :
    load_config_stats stats c =
      { c with
        _stats_send_interval := stats.interval_seconds.getD c._stats_send_interval
        _stats := stats.url.getD c._stats
        _stats_dump_stdout := stats.dump_stdout.getD c._stats_dump_stdout
        _stats_send := stats.send.getD c._stats_send } := by
  rcases stats with ⟨_ | i, _ | u, _ | o, _ | e⟩ <;> rfl

theorem load_config_server_eq (server : ServerSettings) (c : Config) :
    load_config_server server c =
      { c with
        _ip := server.ip.getD c._ip
        _port := server.port.getD c._port
        _http_server_config :=
          { max_conns := server.max_conns.getD c._http_server_config.max_conns
            backlog := server.backlog.getD c._http_server_config.backlog
            keep_alive_timeout :=
              server.keep_alive_timeout_seconds.getD c._http_server_config.keep_alive_timeout
            buffer_size := server.message_max_size.getD c._http_server_config.buffer_size
            request_max_size :=
              server.message_max_size.getD c._http_server_config.request_max_size } } := by
  rcases server with ⟨_ | i, _ | p, _ | m, _ | b, _ | k, _ | s⟩ <;> rfl

theorem load_config_client_eq (client : ClientSettings) (c : Config) :
    load_config_client client c =
      { c with
        _http_post_retries := client.retries.getD c._http_post_retries
        _http_client_config :=
          { conns_per_ip := client.conns_per_ip.getD c._http_client_config.conns_per_ip
            pool_max_conns := client.pool_max_conns.getD c._http_client_config.pool_max_conns
            response_timeout :=
              client.reponse_timeout_ms.getD c._http_client_config.response_timeout
            body_max_size :=
              client.message_max_size.getD c._http_client_config.body_max_size } } := by
  rcases client with ⟨_ | i, _ | p, _ | t, _ | r, _ | s⟩ <;> rfl

theorem load_config_core_eq (d : HttpDefaults) (hw : Nat) (core : CoreSettings) :
    load_config_core hw core (Config.initial d hw) =
      if divides_by_zero hw { core := some core } then .error .division_by_zero
      else .ok (resolved d hw { core := some core }) := by
  by_cases hh : hw = 0 <;> rcases core with ⟨_ | t, _ | ok, _ | er, _ | q⟩ <;>
    first
    | (simp [load_config_core, load_config_threads, lookupValue, divides_by_zero, final_threads,
        resolved, Config.initial, Settings.core_keys, Settings.stats_keys, Settings.server_keys,
        Settings.client_keys, hh]; done)
    | (by_cases ht : t = 0 <;>
        simp [load_config_core, load_config_threads, lookupValue, divides_by_zero, final_threads,
          resolved, Config.initial, Settings.core_keys, Settings.stats_keys, Settings.server_keys,
          Settings.client_keys, hh, ht])

theorem divides_by_zero_core (hw : Nat) (core : Option CoreSettings)
    (stats : Option StatsSettings) (http : Option HttpSettings) :
    divides_by_zero hw { core := core, stats := stats, http := http }
      = divides_by_zero hw { core := core } := rfl

/-- The settings loader refines the resolved configuration of the spec: on a
file that is read as `cfg` it stops at the division when the divisor is zero
and returns the resolved configuration otherwise. -/
theorem load_config_readable (d : HttpDefaults) (hw : Nat) (cfg : Settings) :
    load_config hw (readable cfg) (Config.initial d hw) =
      if divides_by_zero hw cfg then .error .division_by_zero else .ok (resolved d hw cfg) := by
  rcases cfg with ⟨_ | core, _ | stats, _ | ⟨_ | server, _ | client⟩⟩ <;>
    simp only [load_config, readable, load_config_sections, load_config_core_eq,
      load_config_http, load_config_stats_eq, load_config_server_eq, load_config_client_eq,
      divides_by_zero_core] <;>
    first
    | (simp [divides_by_zero, final_threads, resolved, Config.initial, Settings.core_keys,
        Settings.stats_keys, Settings.server_keys, Settings.client_keys]; done)
    | (by_cases hz : divides_by_zero hw { core := some core } = true <;>
        simp [hz, resolved, Config.initial, Settings.core_keys,
          Settings.stats_keys, Settings.server_keys, Settings.client_keys, final_threads])

theorem load_config_ok (d : HttpDefaults) (hw : Nat) (cfg : Settings) (c : Config)
    (h : load_config hw (readable cfg) (Config.initial d hw) = .ok c) :
    divides_by_zero hw cfg = false ∧ c = resolved d hw cfg := by
  rw [load_config_readable] at h
  by_cases hz : divides_by_zero hw cfg = true
  · rw [if_pos hz] at h
    cases h
  · rw [if_neg hz] at h
    injection h with h
    exact ⟨by simpa using hz, h.symm⟩

theorem load_config_returns (d : HttpDefaults) (hw : Nat) (cfg : Settings)
    (h : divides_by_zero hw cfg = false) :
    load_config hw (readable cfg) (Config.initial d hw) = .ok (resolved d hw cfg) := by
  rw [load_config_readable, h]
  rfl

theorem divides_by_zero_false (hw : Nat) (cfg : Settings)
    (h : cfg.core_keys.queue_size = none ∨ final_threads hw cfg ≠ 0) :
    divides_by_zero hw cfg = false := by
  unfold divides_by_zero
  rcases h with h | h
  · rw [h]
    rfl
  · simp [h]

theorem final_threads_default (hw : Nat) (cfg : Settings)
    (h : cfg.core_keys.threads = none ∨ cfg.core_keys.threads = some 0) :
    final_threads hw cfg = hw := by
  unfold final_threads
  rcases h with h | h <;> simp [h]

theorem final_threads_given (hw : Nat) (cfg : Settings) (v : Nat)
    (h : cfg.core_keys.threads = some v) (hv : v ≠ 0) : final_threads hw cfg = v := by
  unfold final_threads
  rw [h]
  simp [hv]

/-! ## Claims on the settings loader -/

/-- C2: for a settings file whose `core` section has a `queue_size` value `q`,
`load_config` sets `thread_queue_size` to the integer quotient of `q` by the
final thread count (the `threads` value of the file if present and not zero,
otherwise the host parallelism): whenever it returns, the result has that
value, and it returns whenever that divisor is not zero. -/
theorem thread_queue_size_is_quotient (d : HttpDefaults) (hw : Nat) (cfg : Settings) (q : Nat)
    (hq : cfg.core_keys.queue_size = some q) :
    (∀ c, load_config hw (readable cfg) (Config.initial d hw) = .ok c →
        c.threads_count = final_threads hw cfg
          ∧ c.thread_queue_size = Int.ofNat (q / final_threads hw cfg))
    ∧ (final_threads hw cfg ≠ 0 →
        ∃ c, load_config hw (readable cfg) (Config.initial d hw) = .ok c
          ∧ c.threads_count = final_threads hw cfg
          ∧ c.thread_queue_size = Int.ofNat (q / final_threads hw cfg)) := by
  have hres : (resolved d hw cfg).threads_count = final_threads hw cfg
      ∧ (resolved d hw cfg).thread_queue_size = Int.ofNat (q / final_threads hw cfg) := by
    constructor
    · rfl
    · show (resolved d hw cfg)._thread_queue_size = _
      unfold resolved
      simp only [hq]
  constructor
  · intro c hc
    rw [(load_config_ok d hw cfg c hc).2]
    exact hres
  · intro ht
    exact ⟨resolved d hw cfg,
      load_config_returns d hw cfg (divides_by_zero_false hw cfg (Or.inr ht)), hres⟩

/-- C2, the example of the spec: `threads = 4` and `queue_size = 100` give a
`thread_queue_size` of 25, here on a host of parallelism 8. -/
theorem thread_queue_size_is_quotient_witness :
    (({ core := some { threads := some 4, queue_size := some 100 } } : Settings).core_keys.queue_size
        = some 100)
    ∧ ∃ c, load_config 8 (readable { core := some { threads := some 4, queue_size := some 100 } })
          (Config.initial example_defaults 8) = .ok c
        ∧ c.threads_count = 4 ∧ c.thread_queue_size = 25 :=
  ⟨rfl,
    (thread_queue_size_is_quotient example_defaults 8
      { core := some { threads := some 4, queue_size := some 100 } } 100 rfl).2 (by decide)⟩

/-- C5: for a settings file that has `threads = 0` or no `threads` key (with or
without a `core` section), the resolved `threads_count` is the host
parallelism `hw`; for a file with a non-zero `threads` value it is that
value.  The loader returns in every case but one: a zero host parallelism
with a `queue_size` in the file. -/
theorem threads_count_resolution (d : HttpDefaults) (hw : Nat) (cfg : Settings) :
    ((cfg.core_keys.threads = none ∨ cfg.core_keys.threads = some 0) →
      (∀ c, load_config hw (readable cfg) (Config.initial d hw) = .ok c → c.threads_count = hw)
      ∧ ((hw ≠ 0 ∨ cfg.core_keys.queue_size = none) →
          ∃ c, load_config hw (readable cfg) (Config.initial d hw) = .ok c
            ∧ c.threads_count = hw)
      ∧ (load_config_threads hw cfg.core_keys (Config.initial d hw)).threads_count = hw)
    ∧ (∀ v, cfg.core_keys.threads = some v → v ≠ 0 →
        (∃ c, load_config hw (readable cfg) (Config.initial d hw) = .ok c ∧ c.threads_count = v)
        ∧ (load_config_threads hw cfg.core_keys (Config.initial d hw)).threads_count = v) := by
  constructor
  · intro h
    have hft := final_threads_default hw cfg h
    refine ⟨?_, ?_, ?_⟩
    · intro c hc
      rw [(load_config_ok d hw cfg c hc).2]
      exact hft
    · intro h2
      refine ⟨resolved d hw cfg, load_config_returns d hw cfg (divides_by_zero_false hw cfg ?_), hft⟩
      rcases h2 with h2 | h2
      · right
        rw [hft]
        exact h2
      · exact Or.inl h2
    · rcases h with h | h <;>
        simp [load_config_threads, lookupValue, Config.threads_count, Config.initial, h]
  · intro v hv hne
    have hft := final_threads_given hw cfg v hv hne
    refine ⟨⟨resolved d hw cfg,
      load_config_returns d hw cfg (divides_by_zero_false hw cfg (Or.inr ?_)), hft⟩, ?_⟩
    · rw [hft]
      exact hne
    · simp [load_config_threads, lookupValue, Config.threads_count, Config.initial, hv, hne]

/-- C5, at concrete files on a host of parallelism 8: a file with no `core`
section, a file with an empty `core` section (the resolved
`thread_queue_size` is then 0) and a file with `threads = 0` resolve to 8
threads; a file with `threads = 3` resolves to 3. -/
theorem threads_count_resolution_witness :
    (∃ c, load_config 8 (readable {}) (Config.initial example_defaults 8) = .ok c
        ∧ c.threads_count = 8)
    ∧ (∃ c, load_config 8 (readable { core := some {} }) (Config.initial example_defaults 8) = .ok c
        ∧ c.threads_count = 8)
    ∧ (load_config 8 (readable { core := some {} }) (Config.initial example_defaults 8)).map
        Config.thread_queue_size = .ok 0
    ∧ (∃ c, load_config 8 (readable { core := some { threads := some 0, queue_size := some 100 } })
          (Config.initial example_defaults 8) = .ok c ∧ c.threads_count = 8)
    ∧ (∃ c, load_config 8 (readable { core := some { threads := some 3 } })
          (Config.initial example_defaults 8) = .ok c ∧ c.threads_count = 3) :=
  ⟨((threads_count_resolution example_defaults 8 {}).1 (Or.inl rfl)).2.1 (Or.inl (by decide)),
    ((threads_count_resolution example_defaults 8 { core := some {} }).1
      (Or.inl rfl)).2.1 (Or.inl (by decide)),
    rfl,
    ((threads_count_resolution example_defaults 8
      { core := some { threads := some 0, queue_size := some 100 } }).1
      (Or.inr rfl)).2.1 (Or.inl (by decide)),
    ((threads_count_resolution example_defaults 8 { core := some { threads := some 3 } }).2
      3 rfl (by decide)).1⟩

/-- C6, the code at the failing input: on a host whose parallelism is reported
as 0, a settings file with a `queue_size` and no `threads` key leaves
`threads_count` at 0 after lines 110-112 and `load_config` executes the
division of line 119 with a zero divisor; without a `queue_size` the loader
returns with `threads_count` equal to 0. -/
theorem zero_host_parallelism_divides_by_zero :
    (load_config_threads 0 { queue_size := some 100 } (Config.initial example_defaults 0)).threads_count
        = 0
    ∧ load_config 0 (readable { core := some { queue_size := some 100 } })
        (Config.initial example_defaults 0) = .error .division_by_zero
    ∧ (load_config 0 (readable { core := some {} }) (Config.initial example_defaults 0)).map
        Config.threads_count = .ok 0 :=
  ⟨rfl, rfl, rfl⟩

/-- C10: for a settings file that sets `http.server.port` to `p`, the accessor
`port` returns `p` modulo 65536, which is `p` itself exactly when
`p ≤ 65535`; whether the loader returns depends on the `core` section alone,
so no port value makes loading fail, and it returns on every host of
non-zero parallelism. -/
theorem port_accessor_modulo_65536 (d : HttpDefaults) (hw : Nat) (cfg : Settings) (p : Nat)
    (hp : cfg.server_keys.port = some p) :
    (∀ c, load_config hw (readable cfg) (Config.initial d hw) = .ok c →
        c.port = p % 65536 ∧ (c.port = p ↔ p ≤ 65535))
    ∧ (∀ cfg2 : Settings, cfg2.core = cfg.core →
        ((∃ c, load_config hw (readable cfg2) (Config.initial d hw) = .ok c) ↔
          (∃ c, load_config hw (readable cfg) (Config.initial d hw) = .ok c)))
    ∧ (hw ≠ 0 → ∃ c, load_config hw (readable cfg) (Config.initial d hw) = .ok c
        ∧ c.port = p % 65536) := by
  have hport : (resolved d hw cfg).port = p % 65536 := by
    simp [resolved, Config.port, hp]
  refine ⟨?_, ?_, ?_⟩
  · intro c hc
    rw [(load_config_ok d hw cfg c hc).2, hport]
    omega
  · intro cfg2 hcore
    have hdz : divides_by_zero hw cfg2 = divides_by_zero hw cfg := by
      simp [divides_by_zero, final_threads, Settings.core_keys, hcore]
    constructor
    · rintro ⟨c, hc⟩
      exact ⟨_, load_config_returns d hw cfg (hdz ▸ (load_config_ok d hw cfg2 c hc).1)⟩
    · rintro ⟨c, hc⟩
      exact ⟨_, load_config_returns d hw cfg2 (hdz.symm ▸ (load_config_ok d hw cfg c hc).1)⟩
  · intro hhw
    refine ⟨resolved d hw cfg, load_config_returns d hw cfg (divides_by_zero_false hw cfg ?_), hport⟩
    right
    unfold final_threads
    cases cfg.core_keys.threads with
    | none => exact hhw
    | some v =>
      by_cases hv : v = 0
      · simp [hv, hhw]
      · simp [hv]

/-- C10, at concrete files: a port of 70000 is returned as 4464 and a port of
8081 as 8081. -/
theorem port_accessor_modulo_65536_witness :
    (∃ c, load_config 8 (readable { http := some { server := some { port := some 70000 } } })
        (Config.initial example_defaults 8) = .ok c ∧ c.port = 4464)
    ∧ (∃ c, load_config 8 (readable { http := some { server := some { port := some 8081 } } })
        (Config.initial example_defaults 8) = .ok c ∧ c.port = 8081) :=
  ⟨(port_accessor_modulo_65536 example_defaults 8
      { http := some { server := some { port := some 70000 } } } 70000 rfl).2.2 (by decide),
    (port_accessor_modulo_65536 example_defaults 8
      { http := some { server := some { port := some 8081 } } } 8081 rfl).2.2 (by decide)⟩

/-! ## Lemmas on the constructor -/

theorem load_config_threads_network (hw : Nat) (core : CoreSettings) (c : Config) :
    (load_config_threads hw core c)._network = c._network := by
  unfold load_config_threads
  simp only
  split_ifs <;> rfl

theorem load_config_core_network (hw : Nat) (core : CoreSettings) (c0 c : Config)
    (h : load_config_core hw core c0 = .ok c) : c._network = c0._network := by
  unfold load_config_core at h
  cases hq : core.queue_size with
  | none =>
    simp only [hq] at h
    injection h with h
    rw [← h]
    exact load_config_threads_network hw core c0
  | some q =>
    simp only [hq] at h
    split_ifs at h
    injection h with h
    rw [← h]
    exact load_config_threads_network hw core c0

theorem load_config_http_network (http : HttpSettings) (c : Config) :
    (load_config_http http c)._network = c._network := by
  rcases http with ⟨_ | server, _ | client⟩ <;>
    simp [load_config_http, load_config_server_eq, load_config_client_eq]

theorem load_config_network (hw : Nat) (p : ConfigFile) (c0 c : Config)
    (h : load_config hw p c0 = .ok c) : c._network = c0._network := by
  unfold load_config at h
  split_ifs at h
  cases hcont : p.content with
  | none => simp [hcont] at h
  | some cfg =>
    simp only [hcont] at h
    unfold load_config_sections at h
    rcases cfg with ⟨_ | core, _ | stats, _ | http⟩ <;> simp only at h
    · injection h with h; rw [← h]
    · injection h with h; rw [← h, load_config_http_network]
    · injection h with h; rw [← h, load_config_stats_eq]
    · injection h with h; rw [← h, load_config_http_network, load_config_stats_eq]
    all_goals
      cases hcore : load_config_core hw core c0 with
      | error e => simp [hcore] at h
      | ok c1 =>
        have hn := load_config_core_network hw core c0 c1 hcore
        simp only [hcore] at h
        injection h with h
        rw [← h]
        simp [load_config_http_network, load_config_stats_eq, hn]

theorem foldl_push_nodes (nodes : List Peer) :
    ∀ c : Config,
      nodes.foldl
        (fun c node =>
          { c with _network := { c._network with nodes := c._network.nodes ++ [node] } }) c
      = { c with _network := { c._network with nodes := c._network.nodes ++ nodes } } := by
  induction nodes with
  | nil => intro c; simp
  | cons n ns ih => intro c; rw [List.foldl_cons, ih]; simp

theorem load_network_eq (lib : Lib) (p : String) (c : Config) (hc : c._network = {}) :
    load_network lib p c =
      { c with _network :=
        { name := (load_network_nodes lib p).1, nodes := (load_network_nodes lib p).2 } } := by
  unfold load_network
  simp only [foldl_push_nodes]
  by_cases h : (load_network_nodes lib p).1 = ""
  · simp [h, hc]
  · simp [h, hc, Domain.set]

/-- The constructor after a settings file that loads: the three checks in
their order, then the object with the loaded topology. -/
theorem construct_eq (lib : Lib) (d : HttpDefaults) (hw : Nat) (config_p : ConfigFile)
    (network_p : String) (c : Config)
    (hload : load_config hw config_p (Config.initial d hw) = .ok c) :
    Config.construct lib d hw config_p network_p =
      if c._stats = "" then .error (.check "[Config] Stats url not set")
      else if (load_network_nodes lib network_p).1 = "" then
        .error (.check "[Config] Network name empty")
      else if (load_network_nodes lib network_p).2 = [] then
        .error (.check "[Config] Network nodes list empty")
      else
        .ok { c with _network :=
          { name := (load_network_nodes lib network_p).1,
            nodes := (load_network_nodes lib network_p).2 } } := by
  have hnet : c._network = {} := load_config_network hw config_p _ c hload
  unfold Config.construct
  rw [hload]
  simp only [load_network_eq lib network_p c hnet, check]
  by_cases h1 : c._stats = ""
  · simp [h1]
  · by_cases h2 : (load_network_nodes lib network_p).1 = ""
    · simp [h1, h2]
    · by_cases h3 : (load_network_nodes lib network_p).2 = []
      · simp [h1, h2, h3]
      · simp [h1, h2, h3]

/-! ## Claims on the constructor -/

/-- C1: when the settings file loads (into the object `c`), construction fails
if and only if the resolved stats URL is empty, or the network name of the
topology is empty, or its peer list is empty; when none of the three holds,
construction succeeds and the accessors return the loaded stats URL, network
name and peer list. -/
theorem construct_fails_iff (lib : Lib) (d : HttpDefaults) (hw : Nat) (config_p : ConfigFile)
    (network_p : String) (c : Config)
    (hload : load_config hw config_p (Config.initial d hw) = .ok c) :
    ((∃ e, Config.construct lib d hw config_p network_p = .error e) ↔
      (c.stats = "" ∨ (load_network_nodes lib network_p).1 = ""
        ∨ (load_network_nodes lib network_p).2 = []))
    ∧ (¬ (c.stats = "" ∨ (load_network_nodes lib network_p).1 = ""
          ∨ (load_network_nodes lib network_p).2 = []) →
        ∃ r, Config.construct lib d hw config_p network_p = .ok r
          ∧ r.stats = c.stats
          ∧ r.network.name = (load_network_nodes lib network_p).1
          ∧ r.network.nodes = (load_network_nodes lib network_p).2) := by
  rw [construct_eq lib d hw config_p network_p c hload]
  unfold Config.stats
  by_cases h1 : c._stats = ""
  · simp [h1]
  · by_cases h2 : (load_network_nodes lib network_p).1 = ""
    · simp [h1, h2]
    · by_cases h3 : (load_network_nodes lib network_p).2 = []
      · simp [h1, h2, h3]
      · simp [h1, h2, h3, Config.stats, Config.network]

/-- C1, at concrete files: with a stats URL and a topology of one peer the
construction succeeds and the accessors return what was loaded; with a
topology that holds only the name line, or the name line and no valid peer
line, the construction fails. -/
theorem construct_fails_iff_witness :
    (∃ r, Config.construct reference_lib example_defaults 8
          (readable { stats := some { url := some "http://stats" } })
          "net-main\n206.189.11.155 9999 256\n" = .ok r
        ∧ r.stats = "http://stats" ∧ r.network.name = "net-main"
        ∧ r.network.nodes = [Peer.mk (ipv4 206 189 11 155) 9999])
    ∧ (∃ e, Config.construct reference_lib example_defaults 8
          (readable { stats := some { url := some "http://stats" } }) "net-main\n" = .error e)
    ∧ (∃ e, Config.construct reference_lib example_defaults 8
          (readable { stats := some { url := some "http://stats" } })
          "net-main\nnot-an-ip 9999\n" = .error e) := by
  refine ⟨?_, ?_, ?_⟩
  · obtain ⟨r, hr, h1, h2, h3⟩ :=
      (construct_fails_iff reference_lib example_defaults 8
        (readable { stats := some { url := some "http://stats" } })
        "net-main\n206.189.11.155 9999 256\n"
        (resolved example_defaults 8 { stats := some { url := some "http://stats" } }) rfl).2
        (by decide)
    exact ⟨r, hr, h1.trans (by decide), h2.trans (by decide), h3.trans (by decide)⟩
  · exact (construct_fails_iff reference_lib example_defaults 8
      (readable { stats := some { url := some "http://stats" } }) "net-main\n"
      (resolved example_defaults 8 { stats := some { url := some "http://stats" } }) rfl).1.mpr
      (by decide)
  · exact (construct_fails_iff reference_lib example_defaults 8
      (readable { stats := some { url := some "http://stats" } }) "net-main\nnot-an-ip 9999\n"
      (resolved example_defaults 8 { stats := some { url := some "http://stats" } }) rfl).1.mpr
      (by decide)

/-- C8: the three final checks run in the order stats URL, network name, peer
list and the error is that of the first check that fails: with a non-empty
stats URL and an empty network name the error is the one of the name (the
peer list is then empty too), and the error of the empty peer list is
reported only when the stats URL and the network name are both non-empty. -/
theorem first_failed_check_is_reported (lib : Lib) (d : HttpDefaults) (hw : Nat)
    (config_p : ConfigFile) (network_p : String) (c : Config)
    (hload : load_config hw config_p (Config.initial d hw) = .ok c) :
    (c.stats = "" →
      Config.construct lib d hw config_p network_p = .error (.check "[Config] Stats url not set"))
    ∧ (c.stats ≠ "" → (load_network_nodes lib network_p).1 = "" →
        Config.construct lib d hw config_p network_p
            = .error (.check "[Config] Network name empty")
          ∧ (load_network_nodes lib network_p).2 = [])
    ∧ (c.stats ≠ "" → (load_network_nodes lib network_p).1 ≠ "" →
        (load_network_nodes lib network_p).2 = [] →
        Config.construct lib d hw config_p network_p
          = .error (.check "[Config] Network nodes list empty"))
    ∧ (Config.construct lib d hw config_p network_p
          = .error (.check "[Config] Network nodes list empty") →
        c.stats ≠ "" ∧ (load_network_nodes lib network_p).1 ≠ "") := by
  rw [construct_eq lib d hw config_p network_p c hload]
  unfold Config.stats
  refine ⟨?_, ?_, ?_, ?_⟩
  · intro h1
    simp [h1]
  · intro h1 h2
    exact ⟨by simp [h1, h2], load_network_nodes_unnamed lib network_p h2⟩
  · intro h1 h2 h3
    simp [h1, h2, h3]
  · intro h
    by_cases h1 : c._stats = ""
    · simp [h1] at h
    · by_cases h2 : (load_network_nodes lib network_p).1 = ""
      · simp [h1, h2] at h
      · exact ⟨h1, h2⟩

/-- C8, at concrete files: with a stats URL and an empty topology file the
error is the one of the network name; with a stats URL and a topology that
holds only the name line it is the one of the peer list; without a stats
URL it is the one of the stats URL, whatever the topology. -/
theorem first_failed_check_is_reported_witness :
    Config.construct reference_lib example_defaults 8
        (readable { stats := some { url := some "http://stats" } }) ""
      = .error (.check "[Config] Network name empty")
    ∧ Config.construct reference_lib example_defaults 8
        (readable { stats := some { url := some "http://stats" } }) "net-main\n"
      = .error (.check "[Config] Network nodes list empty")
    ∧ Config.construct reference_lib example_defaults 8 (readable {}) ""
      = .error (.check "[Config] Stats url not set") :=
  ⟨((first_failed_check_is_reported reference_lib example_defaults 8
      (readable { stats := some { url := some "http://stats" } }) ""
      (resolved example_defaults 8 { stats := some { url := some "http://stats" } }) rfl).2.1
      (by decide) (by decide)).1,
    (first_failed_check_is_reported reference_lib example_defaults 8
      (readable { stats := some { url := some "http://stats" } }) "net-main\n"
      (resolved example_defaults 8 { stats := some { url := some "http://stats" } }) rfl).2.2.1
      (by decide) (by decide) (by decide),
    (first_failed_check_is_reported reference_lib example_defaults 8 (readable {}) ""
      (resolved example_defaults 8 {}) rfl).1 (by decide)⟩

end sniper
